import Mathlib

/-!
A shallow embedding of the cooperative file-based lock (`FileLock`) and the
guarded document store (`loadShoppingList` / `saveShoppingList`) of the
shopping-list service in `src/index.js`, together with theorems settling the
specification's claims about them.

Filesystem effects are made explicit: the lock marker file is a
`MarkerState` value, the observations the filesystem returns during the
acquisition loop come from an oracle `Nat → AttemptObs` (one observation per
loop iteration, since other processes may change the marker between
iterations), and fallible operations return `Except JsError`.  Wall-clock
readings (`Date.now()`, `stat.mtimeMs`) are integers in milliseconds.
-/

/-- Error values carried by rejected filesystem promises, identified by the
`code` field the way the source inspects them (`error.code`), plus plain
`Error(message)` values built by a `throw new Error(...)`. -/
inductive JsError where
  | enoent
  | eexist
  | syntaxError
  | other (message : String)
  deriving Repr, DecidableEq

/-- The lock marker file: its content (the holder token written by
`fs.writeFile(lockFile, lockId, { flag: 'wx' })`) and its mtime in
milliseconds (`stat.mtimeMs`). -/
structure Marker where
  content : String
  mtime : Int
  deriving Repr, DecidableEq

/-- State of the lock marker path: `none` when no lock file exists. -/
abbrev MarkerState := Option Marker

/-- Completion mode of an `Except`-valued operation: `true` when the promise
resolved normally, `false` when it rejected. -/
def isNormalCompletion {ε α : Type} (x : Except ε α) : Bool :=
  match x with
  | Except.ok _ => true
  | Except.error _ => false

/-- Translation of the defaulting pattern `options.x || d` from the
`FileLock` constructor: JavaScript `||` falls back to the default both when
the option is absent and when it is `0` (falsy). -/
def jsOrNat (x : Option Nat) (d : Nat) : Nat :=
  match x with
  | none => d
  | some v => if v = 0 then d else v

/-- The `options` object accepted by the `FileLock` constructor. -/
structure FileLockOptions where
  maxRetries : Option Nat := none
  retryDelay : Option Nat := none
  lockTimeout : Option Nat := none
  deriving Repr, DecidableEq

/-- Configuration state stored by the `FileLock` constructor
(`src/index.js` lines 38-43). -/
structure FileLock where
  lockFile : String
  maxRetries : Nat
  retryDelay : Nat
  lockTimeout : Nat
  deriving Repr, DecidableEq

/-- The `FileLock` constructor: `new FileLock(lockFile, options)` with the
source's `||`-defaulting of each tunable. -/
def FileLock.ofOptions (lockFile : String) (options : FileLockOptions) : FileLock :=
  { lockFile := lockFile
    maxRetries := jsOrNat options.maxRetries 50
    retryDelay := jsOrNat options.retryDelay 50
    lockTimeout := jsOrNat options.lockTimeout 5000 }

/-- The lock file path (basename of the `path.join(__dirname, ...)` value in
the source). -/
def LOCK_FILE : String := "shopping-list.lock"

/-- The service's single lock instance: `new FileLock(LOCK_FILE)`, i.e.
constructed with the empty options object. -/
def fileLock : FileLock := FileLock.ofOptions LOCK_FILE {}

/-- What the filesystem returns during one iteration of the acquire loop:
the outcome of the exclusive `writeFile` (`none` = success, `some e` =
rejected with `e`), the outcome of `fs.stat` (`some mtimeMs`, or `none` when
`stat` threw), the value of `Date.now()` at the staleness computation, and
the outcome of the ignored `fs.unlink(...).catch(() => {})`. -/
structure AttemptObs where
  write : Option JsError
  statRes : Option Int
  now : Int
  unlinkOk : Bool

/-- Observable actions performed by the acquire loop, recorded in order:
an exclusive-create attempt, a `stat` of the marker, a stale-lock deletion,
and a backoff sleep. -/
inductive LockAction where
  | writeAttempt
  | statCheck
  | breakStale
  | sleep
  deriving Repr, DecidableEq

/-- Outcome of the acquire loop body. -/
inductive AcqOutcome where
  | acquired (attempt : Nat)
  | failed (e : JsError)
  | timeout
  deriving Repr, DecidableEq

/-- Number of occurrences of an action in a trace. -/
def countAct (a : LockAction) : List LockAction → Nat
  | [] => 0
  | b :: l => (if b = a then 1 else 0) + countAct a l

/-- The `for (let attempt = 0; attempt < this.maxRetries; attempt++)` loop
of `FileLock.acquire` (`src/index.js` lines 49-79), with the remaining
iteration count made explicit (`r` = `maxRetries - attempt` on entry).
Each iteration: try the exclusive create; on a non-`EEXIST` rejection
rethrow; otherwise `stat` the marker, delete it and `continue` (no sleep)
when `Date.now() - mtimeMs > lockTimeout`, and otherwise sleep the backoff
delay unless this was the final attempt. -/
def acquireAux (cfg : FileLock) (env : Nat → AttemptObs) :
    Nat → Nat → AcqOutcome × List LockAction
  | _, 0 => (AcqOutcome.timeout, [])
  | attempt, r + 1 =>
    match (env attempt).write with
    | none => (AcqOutcome.acquired attempt, [LockAction.writeAttempt])
    | some e =>
      if e ≠ JsError.eexist then
        (AcqOutcome.failed e, [LockAction.writeAttempt])
      else
        match (env attempt).statRes with
        | some mtimeMs =>
          if (env attempt).now - mtimeMs > (cfg.lockTimeout : Int) then
            ((acquireAux cfg env (attempt + 1) r).1,
              LockAction.writeAttempt :: LockAction.statCheck :: LockAction.breakStale ::
                (acquireAux cfg env (attempt + 1) r).2)
          else
            ((acquireAux cfg env (attempt + 1) r).1,
              LockAction.writeAttempt :: LockAction.statCheck ::
                ((if attempt < cfg.maxRetries - 1 then [LockAction.sleep] else []) ++
                  (acquireAux cfg env (attempt + 1) r).2))
        | none =>
          ((acquireAux cfg env (attempt + 1) r).1,
            LockAction.writeAttempt :: LockAction.statCheck ::
              ((if attempt < cfg.maxRetries - 1 then [LockAction.sleep] else []) ++
                (acquireAux cfg env (attempt + 1) r).2))

/-- The holder token: `` `${requestId}-${Date.now()}` ``. -/
def mkLockId (requestId : String) (now : Int) : String :=
  requestId ++ "-" ++ toString now

/-- The acquisition-timeout message:
`` `Failed to acquire lock after ${waitTime}ms` ``. -/
def acqTimeoutMessage (waitTime : Int) : String :=
  "Failed to acquire lock after " ++ toString waitTime ++ "ms"

/-- `FileLock.acquire(requestId)` (`src/index.js` lines 45-83): computes the
holder token from `t0` (the `Date.now()` at entry, also the recorded
`startTime`), runs the retry loop, and on budget exhaustion throws an error
whose message carries `waitTime = endNow - t0` (`endNow` being the
`Date.now()` after the loop).  The result pairs the promise outcome with the
trace of filesystem actions. -/
def FileLock.acquire (cfg : FileLock) (requestId : String) (t0 endNow : Int)
    (env : Nat → AttemptObs) : Except JsError String × List LockAction :=
  let lockId := mkLockId requestId t0
  match acquireAux cfg env 0 cfg.maxRetries with
  | (AcqOutcome.acquired _, tr) => (Except.ok lockId, tr)
  | (AcqOutcome.failed e, tr) => (Except.error e, tr)
  | (AcqOutcome.timeout, tr) =>
    (Except.error (JsError.other (acqTimeoutMessage (endNow - t0))), tr)

/-- An observation showing the marker present and not stale: the exclusive
create failed with `EEXIST`, `stat` succeeded, and the age is within the
threshold. -/
def NonStaleObs (cfg : FileLock) (obs : AttemptObs) : Prop :=
  obs.write = some JsError.eexist ∧
    ∃ m, obs.statRes = some m ∧ obs.now - m ≤ (cfg.lockTimeout : Int)

/-- `fs.readFile(lockFile, 'utf8')` on the marker path, with an optional
injected fault (`rf`): absent file rejects with `ENOENT`. -/
def fsReadLock (st : MarkerState) (fault : Option JsError) :
    Except JsError String :=
  match fault with
  | some e => Except.error e
  | none =>
    match st with
    | none => Except.error JsError.enoent
    | some m => Except.ok m.content

/-- `fs.unlink(lockFile)` on the marker path, with an optional injected
fault (`uf`): success deletes the marker. -/
def fsUnlinkLock (st : MarkerState) (fault : Option JsError) :
    Except JsError MarkerState :=
  match fault with
  | some e => Except.error e
  | none =>
    match st with
    | none => Except.error JsError.enoent
    | some _ => Except.ok none

/-- The `try` block of `FileLock.release` (`src/index.js` lines 86-93):
read the marker's current content; delete it only when it equals the
recorded token, otherwise warn and leave the marker untouched.  Returns the
resulting marker state, or the error that escapes to the `catch`. -/
def FileLock.releaseBody (st : MarkerState) (lockId : String)
    (rf uf : Option JsError) : Except JsError MarkerState :=
  match fsReadLock st rf with
  | Except.error e => Except.error e
  | Except.ok currentLock =>
    if currentLock = lockId then fsUnlinkLock st uf else Except.ok st

/-- `FileLock.release(lockId, requestId)` (`src/index.js` lines 85-99): the
`try` body wrapped in the `catch` that swallows every error (`ENOENT`
silently, anything else after logging), leaving the marker state unchanged
on failure.  The promise therefore always resolves. -/
def FileLock.release (st : MarkerState) (lockId : String)
    (rf uf : Option JsError) : Except JsError MarkerState :=
  match FileLock.releaseBody st lockId rf uf with
  | Except.ok stAfter => Except.ok stAfter
  | Except.error _ => Except.ok st

/-- Run record of `FileLock.withLock`: the outcome propagated to the outer
caller, the marker state after the `finally` block, and how many times the
callback and `release` ran. -/
structure WithLockRun (R : Type) where
  result : Except JsError R
  finalMarker : MarkerState
  callbackRuns : Nat
  releaseRuns : Nat

/-- `FileLock.withLock(requestId, callback)` (`src/index.js` lines 101-111):
acquire; on failure the `finally` sees `lockId` unset and skips release and
the callback never runs; on success the callback runs once (its outcome is
the value `callback`), then the `finally` awaits `release`.  Per JavaScript
`finally` semantics a rejection thrown by the `finally` block would replace
the callback's outcome — that branch is modelled and proved unreachable. -/
def FileLock.withLock {R : Type} (cfg : FileLock) (requestId : String)
    (t0 endNow : Int) (env : Nat → AttemptObs) (st : MarkerState)
    (rf uf : Option JsError) (callback : Except JsError R) : WithLockRun R :=
  match (FileLock.acquire cfg requestId t0 endNow env).1 with
  | Except.error e =>
    { result := Except.error e, finalMarker := st
      callbackRuns := 0, releaseRuns := 0 }
  | Except.ok lockId =>
    match FileLock.release st lockId rf uf with
    | Except.ok stAfter =>
      { result := callback, finalMarker := stAfter
        callbackRuns := 1, releaseRuns := 1 }
    | Except.error e2 =>
      { result := Except.error e2, finalMarker := st
        callbackRuns := 1, releaseRuns := 1 }

/-- An item of the shopping-list document (the fields built by the request
handlers in `src/index.js`). -/
structure Item where
  id : String
  name : String
  categoryId : String
  quantity : Option String := none
  details : Option String := none
  checked : Bool := false
  createdAt : String := ""
  checkedAt : Option String := none
  deriving Repr, DecidableEq

/-- The shopping-list document.  `extra` carries any further JSON fields of
the stored object; the object spread `{ ...list, lastModified: ... }` in
`saveShoppingList` copies them unchanged. -/
structure ShoppingList where
  items : List Item
  lastModified : String
  extra : List (String × String) := []
  deriving Repr, DecidableEq

/-- Content of the document file: either a well-formed serialization of a
document or bytes that `JSON.parse` rejects. -/
inductive FileContent where
  | serialized (list : ShoppingList)
  | malformed (raw : String)
  deriving Repr, DecidableEq

/-- `fs.readFile(DATA_FILE, 'utf8')` with an optional injected fault:
absent file rejects with `ENOENT`. -/
def fsReadData (file : Option FileContent) (fault : Option JsError) :
    Except JsError FileContent :=
  match fault with
  | some e => Except.error e
  | none =>
    match file with
    | none => Except.error JsError.enoent
    | some c => Except.ok c

/-- `JSON.parse(data)`: succeeds exactly on well-formed serializations. -/
def jsonParse (data : FileContent) : Except JsError ShoppingList :=
  match data with
  | FileContent.serialized list => Except.ok list
  | FileContent.malformed _ => Except.error JsError.syntaxError

/-- The literal `{ items: [], lastModified: new Date().toISOString() }`
built in `loadShoppingList`'s catch. -/
def emptyDefault (now : String) : ShoppingList :=
  { items := [], lastModified := now, extra := [] }

/-- `loadShoppingList()` (`src/index.js` lines 131-139): read and parse the
document file inside a `try` whose `catch` returns the empty default for
every error — absence, read failures and `JSON.parse` failures alike. -/
def loadShoppingList (file : Option FileContent) (fault : Option JsError)
    (now : String) : Except JsError ShoppingList :=
  match
    (match fsReadData file fault with
     | Except.error e => Except.error e
     | Except.ok data => jsonParse data) with
  | Except.ok list => Except.ok list
  | Except.error _ => Except.ok (emptyDefault now)

/-- `saveShoppingList(list)` (`src/index.js` lines 142-149): build
`{ ...list, lastModified: now }`, overwrite the document file with its full
serialization, and return it.  The prior file content `store` plays no role
in the written result. -/
def saveShoppingList (list : ShoppingList) (now : String)
    (_store : Option FileContent) : ShoppingList × Option FileContent :=
  let updatedList : ShoppingList := { list with lastModified := now }
  (updatedList, some (FileContent.serialized updatedList))

/-- A small configuration for concrete runs: 3 attempts, default delays. -/
def cfgSmall : FileLock :=
  { lockFile := "L", maxRetries := 3, retryDelay := 50, lockTimeout := 5000 }

/-- Oracle: the marker path is free; the exclusive create succeeds. -/
def envFree : Nat → AttemptObs :=
  fun _ => { write := none, statRes := none, now := 0, unlinkOk := true }

/-- Oracle: the marker is permanently held and fresh (mtime 0, now 0). -/
def envBusy : Nat → AttemptObs :=
  fun _ => { write := some JsError.eexist, statRes := some 0, now := 0, unlinkOk := true }

/-- Oracle: the exclusive create rejects with a non-`EEXIST` error. -/
def envBroken : Nat → AttemptObs :=
  fun _ => { write := some JsError.enoent, statRes := none, now := 0, unlinkOk := true }

/-- Oracle: on the first attempt the marker is present and stale
(mtime 0 at now 6000 against a 5000 ms threshold); afterwards free. -/
def envStale : Nat → AttemptObs := fun i =>
  if i = 0 then
    { write := some JsError.eexist, statRes := some 0, now := 6000, unlinkOk := true }
  else
    { write := none, statRes := none, now := 6000, unlinkOk := true }

/-- Same observations as `envStale` except that the stale-break `unlink`
fails; `acquire` ignores that result. -/
def envStaleB : Nat → AttemptObs := fun i =>
  if i = 0 then
    { write := some JsError.eexist, statRes := some 0, now := 6000, unlinkOk := false }
  else
    { write := none, statRes := none, now := 6000, unlinkOk := false }

/-- A marker written by caller "r" at time 0. -/
def markerW : Marker := { content := mkLockId "r" 0, mtime := 0 }

/-- Counting distributes over trace concatenation. -/
theorem countAct_append (a : LockAction) (l1 l2 : List LockAction) :
    countAct a (l1 ++ l2) = countAct a l1 + countAct a l2 := by
  induction l1 with
  | nil => simp [countAct]
  | cons b l ih => simp [countAct, ih]; omega

/-- One loop iteration in which the marker is present, `stat` succeeds and
the marker is not stale: the iteration records the failed create and the
stat, sleeps exactly when this is not the final attempt, and recurses. -/
theorem acquireAux_step_wait (cfg : FileLock) (env : Nat → AttemptObs)
    (a r : Nat) (m : Int)
    (hw : (env a).write = some JsError.eexist)
    (hs : (env a).statRes = some m)
    (hns : ¬ ((env a).now - m > (cfg.lockTimeout : Int))) :
    acquireAux cfg env a (r + 1) =
      ((acquireAux cfg env (a + 1) r).1,
        LockAction.writeAttempt :: LockAction.statCheck ::
          ((if a < cfg.maxRetries - 1 then [LockAction.sleep] else []) ++
            (acquireAux cfg env (a + 1) r).2)) := by
  simp [acquireAux, hw, hs, hns]

/-- One loop iteration in which the marker is present, `stat` succeeds and
the marker is stale: the iteration deletes the marker and recurses
immediately, with no sleep. -/
theorem acquireAux_step_stale (cfg : FileLock) (env : Nat → AttemptObs)
    (a r : Nat) (m : Int)
    (hw : (env a).write = some JsError.eexist)
    (hs : (env a).statRes = some m)
    (hst : (env a).now - m > (cfg.lockTimeout : Int)) :
    acquireAux cfg env a (r + 1) =
      ((acquireAux cfg env (a + 1) r).1,
        LockAction.writeAttempt :: LockAction.statCheck :: LockAction.breakStale ::
          (acquireAux cfg env (a + 1) r).2) := by
  simp [acquireAux, hw, hs, hst]

/-- One loop iteration in which the exclusive create rejects with an error
other than `EEXIST`: the error is rethrown at once. -/
theorem acquireAux_step_err (cfg : FileLock) (env : Nat → AttemptObs)
    (a r : Nat) (e : JsError)
    (hw : (env a).write = some e) (hne : e ≠ JsError.eexist) :
    acquireAux cfg env a (r + 1) = (AcqOutcome.failed e, [LockAction.writeAttempt]) := by
  simp [acquireAux, hw, hne]

/-- When every observed iteration sees the marker present and non-stale,
the loop runs out its budget: `r` create attempts, `r - 1` sleeps (none
after the final attempt), no stale-break, outcome `timeout`. -/
theorem acquireAux_budget (cfg : FileLock) (env : Nat → AttemptObs) :
    ∀ r a, a + r = cfg.maxRetries →
      (∀ j, j < cfg.maxRetries → NonStaleObs cfg (env j)) →
      (acquireAux cfg env a r).1 = AcqOutcome.timeout ∧
      countAct LockAction.writeAttempt (acquireAux cfg env a r).2 = r ∧
      countAct LockAction.sleep (acquireAux cfg env a r).2 = r - 1 := by
  intro r
  induction r with
  | zero => intro a _ _; exact ⟨rfl, rfl, rfl⟩
  | succ r ih =>
    intro a hsum hns
    obtain ⟨hw, m, hs, hle⟩ := hns a (by omega)
    have hstep := acquireAux_step_wait cfg env a r m hw hs (not_lt.mpr hle)
    obtain ⟨ih1, ih2, ih3⟩ := ih (a + 1) (by omega) hns
    rw [hstep]
    refine ⟨ih1, ?_, ?_⟩
    · by_cases hc : a < cfg.maxRetries - 1 <;>
        simp [countAct, countAct_append, hc, ih2] <;> omega
    · by_cases hc : a < cfg.maxRetries - 1
      · simp [countAct, countAct_append, hc, ih3]
        omega
      · have hr : r = 0 := by omega
        subst hr
        simp [countAct, countAct_append, hc, ih3]

/-- When no observed `stat` ever reports an age over the threshold, the loop
never deletes the marker. -/
theorem acquireAux_breakFree (cfg : FileLock) (env : Nat → AttemptObs)
    (h : ∀ j mj, (env j).statRes = some mj →
      (env j).now - mj ≤ (cfg.lockTimeout : Int)) :
    ∀ r a, LockAction.breakStale ∉ (acquireAux cfg env a r).2 := by
  intro r
  induction r with
  | zero => intro a; simp [acquireAux]
  | succ r ih =>
    intro a
    rcases hw : (env a).write with _ | e
    · simp [acquireAux, hw]
    · by_cases he : e = JsError.eexist
      · subst he
        rcases hs : (env a).statRes with _ | m
        · by_cases hc : a < cfg.maxRetries - 1 <;>
            simp [acquireAux, hw, hs, hc, ih (a + 1)]
        · have hns : ¬ ((env a).now - m > (cfg.lockTimeout : Int)) :=
            not_lt.mpr (h a m hs)
          rw [acquireAux_step_wait cfg env a r m hw hs hns]
          by_cases hc : a < cfg.maxRetries - 1 <;>
            simp [hc, ih (a + 1)]
      · simp [acquireAux, hw, he]

/-- The loop's behaviour depends only on the `write`, `statRes` and `now`
components of the observations — the result of the ignored stale-break
`unlink` is irrelevant. -/
theorem acquireAux_ext (cfg : FileLock) (env envB : Nat → AttemptObs)
    (h : ∀ j, (env j).write = (envB j).write ∧
      (env j).statRes = (envB j).statRes ∧ (env j).now = (envB j).now) :
    ∀ r a, acquireAux cfg env a r = acquireAux cfg envB a r := by
  intro r
  induction r with
  | zero => intro a; rfl
  | succ r ih =>
    intro a
    obtain ⟨h1, h2, h3⟩ := h a
    simp only [acquireAux, h1, h2, h3, ih]

/-- The `catch` of `FileLock.release` swallows every failure of the body,
so the release promise always resolves. -/
theorem release_exists_ok (st : MarkerState) (lockId : String)
    (rf uf : Option JsError) :
    ∃ st2, FileLock.release st lockId rf uf = Except.ok st2 := by
  unfold FileLock.release
  cases FileLock.releaseBody st lockId rf uf with
  | ok st2 => exact ⟨st2, rfl⟩
  | error e => exact ⟨st, rfl⟩

/-- Claim C1: whenever acquisition succeeds with token `lockId`,
`withLock` runs the callback exactly once, runs `release` before
returning, and propagates the callback's outcome (value or error)
unchanged — release always completes normally, so no release failure
replaces the callback's result. -/
theorem C1_withLock_scoped {R : Type} (cfg : FileLock) (requestId : String)
    (t0 endNow : Int) (env : Nat → AttemptObs) (st : MarkerState)
    (rf uf : Option JsError) (cb : Except JsError R) (lockId : String)
    (hacq : (FileLock.acquire cfg requestId t0 endNow env).1 = Except.ok lockId) :
    ∃ st2, FileLock.release st lockId rf uf = Except.ok st2 ∧
      FileLock.withLock cfg requestId t0 endNow env st rf uf cb =
        { result := cb, finalMarker := st2, callbackRuns := 1, releaseRuns := 1 } := by
  obtain ⟨st2, hrel⟩ := release_exists_ok st lockId rf uf
  exact ⟨st2, hrel, by simp [FileLock.withLock, hacq, hrel]⟩

/-- Witness for C1 at a concrete run: a free marker path, caller "r" at
time 0, callback returning `42`. -/
theorem C1_witness :
    FileLock.withLock cfgSmall "r" 0 0 envFree (some markerW) none none
        (Except.ok (42 : Nat)) =
      { result := Except.ok 42, finalMarker := none
        callbackRuns := 1, releaseRuns := 1 } := by
  obtain ⟨st2, hrel, hrun⟩ :=
    C1_withLock_scoped cfgSmall "r" 0 0 envFree (some markerW)
      none none (Except.ok (42 : Nat)) (mkLockId "r" 0) rfl
  have h2 : FileLock.release (some markerW) (mkLockId "r" 0) none none =
      Except.ok (none : MarkerState) := by
    simp [FileLock.release, FileLock.releaseBody, fsReadLock, fsUnlinkLock, markerW]
  rw [h2] at hrel
  injection hrel with h3
  rw [← h3] at hrun
  exact hrun

/-- Claim C2: `release` deletes the marker exactly when its current
content equals the recorded token byte-for-byte; on a mismatch it leaves
the marker untouched, on an absent marker it does nothing, and in every
case the promise resolves normally.  In particular a late release by a
broken holder never deletes a marker now containing a different token. -/
theorem C2_release_ownership (st : MarkerState) (tok : String) :
    FileLock.release st tok none none =
      Except.ok (match st with
        | none => none
        | some m => if m.content = tok then none else some m) := by
  cases st with
  | none => rfl
  | some m =>
    by_cases h : m.content = tok <;>
      simp [FileLock.release, FileLock.releaseBody, fsReadLock, fsUnlinkLock, h]

/-- Claim C3: an acquisition attempt that finds the marker present deletes
it exactly when its age exceeds the staleness threshold; the stale break
retries the exclusive create immediately with no backoff sleep in that
iteration; the outcome ignores the result of the stale-break `unlink`
(deletion failure is benign); and no iteration ever deletes a marker whose
observed age is within the threshold. -/
theorem C3_staleness (cfg : FileLock) (env envB : Nat → AttemptObs)
    (i r : Nat) (m : Int) :
    ((env i).write = some JsError.eexist → (env i).statRes = some m →
      (env i).now - m > (cfg.lockTimeout : Int) →
      acquireAux cfg env i (r + 1) =
        ((acquireAux cfg env (i + 1) r).1,
          LockAction.writeAttempt :: LockAction.statCheck :: LockAction.breakStale ::
            (acquireAux cfg env (i + 1) r).2)) ∧
    ((∀ j mj, (env j).statRes = some mj →
        (env j).now - mj ≤ (cfg.lockTimeout : Int)) →
      ∀ r2 a, LockAction.breakStale ∉ (acquireAux cfg env a r2).2) ∧
    ((∀ j, (env j).write = (envB j).write ∧
        (env j).statRes = (envB j).statRes ∧ (env j).now = (envB j).now) →
      ∀ r2 a, acquireAux cfg env a r2 = acquireAux cfg envB a r2) := by
  refine ⟨?_, ?_, ?_⟩
  · intro hw hs hst
    exact acquireAux_step_stale cfg env i r m hw hs hst
  · intro hns
    exact acquireAux_breakFree cfg env hns
  · intro hagree
    exact acquireAux_ext cfg env envB hagree

/-- Witness for C3 at concrete runs: a stale marker is broken with no
sleep, a fresh marker is never broken, and a failing stale-break `unlink`
changes nothing. -/
theorem C3_witness :
    acquireAux cfgSmall envStale 0 3 =
      ((acquireAux cfgSmall envStale 1 2).1,
        LockAction.writeAttempt :: LockAction.statCheck :: LockAction.breakStale ::
          (acquireAux cfgSmall envStale 1 2).2) ∧
    LockAction.breakStale ∉ (acquireAux cfgSmall envBusy 0 3).2 ∧
    acquireAux cfgSmall envStale 0 3 = acquireAux cfgSmall envStaleB 0 3 := by
  refine ⟨?_, ?_, ?_⟩
  · exact (C3_staleness cfgSmall envStale envStaleB 0 2 0).1 rfl rfl (by decide)
  · exact (C3_staleness cfgSmall envBusy envBusy 0 2 0).2.1
      (fun j mj h => by simp [envBusy, cfgSmall] at h ⊢; omega) 3 0
  · exact (C3_staleness cfgSmall envStale envStaleB 0 2 0).2.2
      (fun j => by by_cases hj : j = 0 <;> simp [envStale, envStaleB, hj]) 3 0

/-- Claim C4: against a marker that stays present and non-stale for the
whole run, `acquire` performs exactly `maxRetries` exclusive-create
attempts and `maxRetries - 1` backoff sleeps, then rejects with the
timeout error whose message carries the elapsed wall-clock time. -/
theorem C4_attempt_budget (cfg : FileLock) (requestId : String)
    (t0 endNow : Int) (env : Nat → AttemptObs)
    (h : ∀ j, j < cfg.maxRetries → NonStaleObs cfg (env j)) :
    (FileLock.acquire cfg requestId t0 endNow env).1 =
      Except.error (JsError.other (acqTimeoutMessage (endNow - t0))) ∧
    countAct LockAction.writeAttempt
        (FileLock.acquire cfg requestId t0 endNow env).2 = cfg.maxRetries ∧
    countAct LockAction.sleep
        (FileLock.acquire cfg requestId t0 endNow env).2 = cfg.maxRetries - 1 := by
  obtain ⟨h1, h2, h3⟩ := acquireAux_budget cfg env cfg.maxRetries 0 (by omega) h
  rcases hp : acquireAux cfg env 0 cfg.maxRetries with ⟨res, tr⟩
  rw [hp] at h1 h2 h3
  have hres : res = AcqOutcome.timeout := h1
  subst hres
  have h2b : countAct LockAction.writeAttempt tr = cfg.maxRetries := h2
  have h3b : countAct LockAction.sleep tr = cfg.maxRetries - 1 := h3
  refine ⟨?_, ?_, ?_⟩ <;> simp [FileLock.acquire, hp, h2b, h3b]

/-- Witness for C4 at a concrete run: 3 attempts against a permanently
held fresh marker give 3 creates, 2 sleeps and the timeout error for the
150 ms elapsed between entry and exhaustion. -/
theorem C4_witness :
    (FileLock.acquire cfgSmall "r" 0 150 envBusy).1 =
      Except.error (JsError.other (acqTimeoutMessage (150 - 0))) ∧
    countAct LockAction.writeAttempt
        (FileLock.acquire cfgSmall "r" 0 150 envBusy).2 = 3 ∧
    countAct LockAction.sleep
        (FileLock.acquire cfgSmall "r" 0 150 envBusy).2 = 2 :=
  C4_attempt_budget cfgSmall "r" 0 150 envBusy
    (fun _ _ => ⟨rfl, 0, rfl, by
      show (0 : Int) - 0 ≤ (cfgSmall.lockTimeout : Int)
      decide⟩)

/-- Claim C5, counterexample: loading an existing but malformed document
resource returns the empty-default document as a normal value — it does
not fail with an error, contrary to the claim. -/
theorem C5_counterexample :
    loadShoppingList (some (FileContent.malformed "this is not json")) none "T0" =
      Except.ok (emptyDefault "T0") := rfl

/-- Claim C5 as amended: `loadShoppingList` never rejects; it returns the
stored document when the resource exists, is readable and parses, and the
fresh empty-default document on absence and on every other read or parse
failure (malformed content included).  The default is a valid input to a
subsequent mutation: saving it yields an empty-items document stamped with
the new instant. -/
theorem C5_load_amended (file : Option FileContent) (fault : Option JsError)
    (now now2 : String) (store : Option FileContent) :
    loadShoppingList file fault now =
      Except.ok (match file, fault with
        | some (FileContent.serialized d), none => d
        | _, _ => emptyDefault now) ∧
    (saveShoppingList (emptyDefault now) now2 store).1 =
      { items := [], lastModified := now2, extra := [] } := by
  constructor
  · cases fault with
    | some e =>
      cases file with
      | none => rfl
      | some c => cases c <;> rfl
    | none =>
      cases file with
      | none => rfl
      | some c => cases c <;> rfl
  · rfl

/-- Claim C6: `saveShoppingList` returns and writes a document whose
`lastModified` is the current instant and whose every other field (items
and any extra fields) is unchanged; the resource is fully overwritten with
that document's serialization, independent of the prior file content. -/
theorem C6_save_frame (list : ShoppingList) (now : String)
    (store store2 : Option FileContent) :
    (saveShoppingList list now store).1.items = list.items ∧
    (saveShoppingList list now store).1.extra = list.extra ∧
    (saveShoppingList list now store).1.lastModified = now ∧
    (saveShoppingList list now store).2 =
      some (FileContent.serialized (saveShoppingList list now store).1) ∧
    (saveShoppingList list now store).2 = (saveShoppingList list now store2).2 :=
  ⟨rfl, rfl, rfl, rfl, rfl⟩

/-- Claim C8: the service's lock instance, constructed without explicit
options, carries the default tunables: 50 attempts, 50 ms backoff,
5000 ms staleness threshold. -/
theorem C8_default_parameters :
    fileLock.maxRetries = 50 ∧ fileLock.retryDelay = 50 ∧
    fileLock.lockTimeout = 5000 ∧ fileLock.lockFile = LOCK_FILE :=
  ⟨rfl, rfl, rfl, rfl⟩

/-- Claim C9: a non-`EEXIST` rejection of the exclusive create is rethrown
at once — that iteration records only the create, with no sleep, no stat
and no deletion, and `acquire` propagates exactly that error. -/
theorem C9_nonEexist_propagates (cfg : FileLock) (env : Nat → AttemptObs)
    (requestId : String) (t0 endNow : Int) (i r : Nat) (e : JsError)
    (hw : (env i).write = some e) (hne : e ≠ JsError.eexist) :
    acquireAux cfg env i (r + 1) =
      (AcqOutcome.failed e, [LockAction.writeAttempt]) ∧
    ((env 0).write = some e → 0 < cfg.maxRetries →
      FileLock.acquire cfg requestId t0 endNow env =
        (Except.error e, [LockAction.writeAttempt])) := by
  refine ⟨acquireAux_step_err cfg env i r e hw hne, ?_⟩
  intro h0 hpos
  obtain ⟨k, hk⟩ : ∃ k, cfg.maxRetries = k + 1 := ⟨cfg.maxRetries - 1, by omega⟩
  have hstep := acquireAux_step_err cfg env 0 k e h0 hne
  simp [FileLock.acquire, hk, hstep]

/-- Witness for C9 at a concrete run: the create rejecting with `ENOENT`
is propagated from the first attempt. -/
theorem C9_witness :
    acquireAux cfgSmall envBroken 0 3 =
      (AcqOutcome.failed JsError.enoent, [LockAction.writeAttempt]) ∧
    FileLock.acquire cfgSmall "r" 0 0 envBroken =
      (Except.error JsError.enoent, [LockAction.writeAttempt]) := by
  have h := C9_nonEexist_propagates cfgSmall envBroken "r" 0 0 0 2
    JsError.enoent rfl (by decide)
  exact ⟨h.1, h.2 rfl (by decide)⟩

/-- Claim C10: `release` resolves normally for every marker state, token
and injected read or unlink failure; consequently the `finally` block of
`withLock` never raises, so the outer caller receives either the
callback's own outcome or the acquisition error — never a release error. -/
theorem C10_release_never_throws (st : MarkerState) (lockId : String)
    (rf uf : Option JsError) :
    isNormalCompletion (FileLock.release st lockId rf uf) = true ∧
    ∀ (R : Type) (cfg : FileLock) (requestId : String) (t0 endNow : Int)
      (env : Nat → AttemptObs) (cb : Except JsError R),
      (FileLock.withLock cfg requestId t0 endNow env st rf uf cb).result = cb ∨
      ∃ e, (FileLock.acquire cfg requestId t0 endNow env).1 = Except.error e ∧
        (FileLock.withLock cfg requestId t0 endNow env st rf uf cb).result =
          Except.error e := by
  constructor
  · obtain ⟨st2, hrel⟩ := release_exists_ok st lockId rf uf
    rw [hrel]
    rfl
  · intro R cfg requestId t0 endNow env cb
    cases hA : (FileLock.acquire cfg requestId t0 endNow env).1 with
    | error e => exact Or.inr ⟨e, rfl, by simp [FileLock.withLock, hA]⟩
    | ok lid =>
      obtain ⟨st3, hrel3⟩ := release_exists_ok st lid rf uf
      exact Or.inl (by simp [FileLock.withLock, hA, hrel3])
